import Mathlib

/-!
Shallow embedding of `src/PCG4YA.py`, an infinite 2D platformer
(player kinematics, platform entities, the seeded procedural platform
generator, the smoothed camera and the session controller).

Modelling conventions:
* Python floats are modelled as exact rationals (`ℚ`); the decimal
  constants of the source (0.7, 0.1, 1.5, 0.65, 0.05, 0.8, 0.03) are all
  exactly representable.
* `math.sqrt`, used only to normalise the dash direction vector, is kept
  as an explicit function parameter `sq : ℚ → ℚ` (its only irrational
  use is `sqrt 2`, which has no rational value); no claim below depends
  on its value.
* Python's process-global `random` module is modelled as explicit state
  passing of a stream state `R` together with a record `RandomLib` of the
  deterministic functions `seed`, `randint` and `random` that the source
  calls.  `random.seed(s)` replaces the stream state by `lib.seedFn s`.
* Python's `int(...)` truncation toward zero is `pyInt`; `//` floor
  division appears only as `SCREEN_WIDTH // 3` and `SCREEN_HEIGHT // 2`
  and is modelled with `Int.floor`.
* The module-level constant block of the source (lines 15-35) is lifted
  into a `Config` record read exactly where the source reads the
  constants; `defaultConfig` holds the source's values.  Literals that
  are written inline in the source (the dash cooldown 60, generation
  bases 150/80/60, crumble delay 30, ...) stay inline here as well.
-/

/-- The module-level constant block of `PCG4YA.py` (lines 15-35). -/
structure Config where
  gravity : ℚ
  playerSpeed : ℚ
  jumpStrength : ℚ
  dashSpeed : ℚ
  dashDuration : Int
  coyoteTime : Int
  screenWidth : ℚ
  screenHeight : ℚ
deriving DecidableEq

/-- The source's values: GRAVITY = 0.7, PLAYER_SPEED = 6,
JUMP_STRENGTH = -15, DASH_SPEED = 20, DASH_DURATION = 10,
COYOTE_TIME = 6, SCREEN_WIDTH = 1000, SCREEN_HEIGHT = 600. -/
def defaultConfig : Config :=
  { gravity := 0.7, playerSpeed := 6, jumpStrength := -15, dashSpeed := 20,
    dashDuration := 10, coyoteTime := 6, screenWidth := 1000, screenHeight := 600 }

/-- Python's `int(q)`: truncation toward zero. -/
def pyInt (q : ℚ) : Int := if q < 0 then -(Int.floor (-q)) else Int.floor q

/-- clamp of a value into `[lo, hi]` (used to state the difficulty claim). -/
def clampQ (v lo hi : ℚ) : ℚ := max lo (min v hi)

/-- `class PlatformType(Enum)` (lines 38-42). -/
inductive PlatformType where
  | NORMAL
  | CRUMBLING
  | BOUNCY
  | MOVING
deriving DecidableEq

/-- `class Platform` (lines 176-210).  `pid` models Python object
identity (platform objects are shared, by reference, between the
generator's list and the filtered list handed to the player).  The
moving-platform attributes are set by `__init__` only for MOVING
platforms and are never read for the other types; here they are present
on every record, initialised by `Platform.make` to the values
`__init__` assigns in the MOVING case. -/
structure Platform where
  pid : Nat
  x : ℚ
  y : ℚ
  width : ℚ
  height : ℚ
  platform_type : PlatformType
  crumble_timer : Int
  active : Bool
  original_y : ℚ
  move_range : ℚ
  move_speed : ℚ
  move_direction : Int
deriving DecidableEq

/-- `Platform.__init__(x, y, width, platform_type)` (lines 179-193). -/
def Platform.make (pid : Nat) (x y width : ℚ) (t : PlatformType) : Platform :=
  { pid := pid, x := x, y := y, width := width, height := 20,
    platform_type := t, crumble_timer := 0, active := true,
    original_y := y, move_range := 100, move_speed := 2, move_direction := 1 }

/-- `Platform.update` (lines 195-205): a crumbling platform with a
running countdown decrements it and deactivates at zero; a moving
platform translates vertically and reverses direction past its
amplitude. -/
def Platform.update (p : Platform) : Platform :=
  let p :=
    if p.platform_type = PlatformType.CRUMBLING ∧ p.crumble_timer > 0 then
      let t := p.crumble_timer - 1
      { p with crumble_timer := t, active := if t ≤ 0 then false else p.active }
    else p
  if p.platform_type = PlatformType.MOVING then
    let y := p.y + p.move_speed * p.move_direction
    { p with y := y,
             move_direction :=
               if |y - p.original_y| > p.move_range then -p.move_direction
               else p.move_direction }
  else p

/-- `Platform.start_crumble` (lines 207-210): starts the countdown only
if it is not already running. -/
def Platform.start_crumble (p : Platform) : Platform :=
  if p.crumble_timer = 0 then { p with crumble_timer := 30 } else p

/-- Per-tick input snapshot: the keys the core reads
(arrows, Z = jump, X = dash). -/
structure Keys where
  left : Bool
  right : Bool
  up : Bool
  down : Bool
  z : Bool
  x : Bool
deriving DecidableEq

def noKeys : Keys := ⟨false, false, false, false, false, false⟩

def jumpKeys : Keys := { noKeys with z := true }

/-- `class Player.__init__` (lines 48-59). -/
structure Player where
  x : ℚ
  y : ℚ
  width : ℚ
  height : ℚ
  vel_x : ℚ
  vel_y : ℚ
  on_ground : Bool
  dash_timer : Int
  dash_cooldown : Int
  dashing : Bool
  coyote_timer : Int
deriving DecidableEq

def Player.make (x y : ℚ) : Player :=
  { x := x, y := y, width := 30, height := 40, vel_x := 0, vel_y := 0,
    on_ground := false, dash_timer := 0, dash_cooldown := 0,
    dashing := false, coyote_timer := 0 }

/-- Lines 63-70: horizontal movement — while not dashing, vel_x is set
instantaneously from the held arrow keys. -/
def Player.moveInput (cfg : Config) (keys : Keys) (p : Player) : Player :=
  if ¬p.dashing then
    { p with vel_x :=
        if keys.left then -cfg.playerSpeed
        else if keys.right then cfg.playerSpeed
        else 0 }
  else p

/-- Lines 72-76: coyote time — reset to COYOTE_TIME while grounded,
otherwise count down toward 0. -/
def Player.coyoteStep (cfg : Config) (p : Player) : Player :=
  if p.on_ground then { p with coyote_timer := cfg.coyoteTime }
  else if p.coyote_timer > 0 then { p with coyote_timer := p.coyote_timer - 1 }
  else p

/-- Lines 78-82: jumping — requires the Z key, a positive coyote timer
and non-negative vertical velocity. -/
def Player.jumpStep (cfg : Config) (keys : Keys) (p : Player) : Player :=
  if keys.z ∧ p.coyote_timer > 0 ∧ p.vel_y ≥ 0 then
    { p with vel_y := cfg.jumpStrength, coyote_timer := 0, on_ground := false }
  else p

/-- Lines 84-112: dash start — the X key, an expired cooldown and not
already dashing start a dash; the direction is taken from the held
arrows (defaulting to straight right), normalised via `sq` = math.sqrt
and scaled by DASH_SPEED. -/
def Player.dashStart (cfg : Config) (sq : ℚ → ℚ) (keys : Keys) (p : Player) : Player :=
  if keys.x ∧ p.dash_cooldown ≤ 0 ∧ ¬p.dashing then
    let p := { p with dashing := true, dash_timer := cfg.dashDuration,
                      dash_cooldown := 60 }
    let dash_x : Int := if keys.left then -1 else if keys.right then 1 else 0
    let dash_y : Int := if keys.up then -1 else if keys.down then 1 else 0
    let dash_x : Int := if dash_x = 0 ∧ dash_y = 0 then 1 else dash_x
    let magnitude := sq ((dash_x : ℚ) ^ 2 + (dash_y : ℚ) ^ 2)
    if magnitude > 0 then
      { p with vel_x := (dash_x : ℚ) / magnitude * cfg.dashSpeed,
               vel_y := (dash_y : ℚ) / magnitude * cfg.dashSpeed }
    else p
  else p

/-- Lines 114-119: dash countdown — while dashing, decrement
`dash_timer`; at zero the dash ends and vel_x becomes ±PLAYER_SPEED
according to `vel_x > 0`. -/
def Player.dashTick (cfg : Config) (p : Player) : Player :=
  if p.dashing then
    let p := { p with dash_timer := p.dash_timer - 1 }
    if p.dash_timer ≤ 0 then
      { p with dashing := false,
               vel_x := if p.vel_x > 0 then cfg.playerSpeed else -cfg.playerSpeed }
    else p
  else p

/-- Lines 121-122: cooldown countdown. -/
def Player.cooldownStep (p : Player) : Player :=
  if p.dash_cooldown > 0 then { p with dash_cooldown := p.dash_cooldown - 1 } else p

/-- Lines 124-126: gravity, applied only when not dashing. -/
def Player.gravityStep (cfg : Config) (p : Player) : Player :=
  if ¬p.dashing then { p with vel_y := p.vel_y + cfg.gravity } else p

/-- Lines 128-130: position integration. -/
def Player.integrate (p : Player) : Player :=
  { p with x := p.x + p.vel_x, y := p.y + p.vel_y }

/-- `Player.check_collision` (lines 138-143): open AABB overlap. -/
def Player.check_collision (p : Player) (pl : Platform) : Bool :=
  decide (p.x < pl.x + pl.width) && decide (p.x + p.width > pl.x) &&
  decide (p.y < pl.y + pl.height) && decide (p.y + p.height > pl.y)

/-- `Player.handle_collision` (lines 145-158): top-only landing with a
5-unit tolerance against the pre-movement bottom edge; bouncy platforms
override vel_y with 1.5 × JUMP_STRENGTH and clear on_ground; crumbling
platforms are told to start crumbling. -/
def Player.handle_collision (cfg : Config) (p : Player) (pl : Platform) :
    Player × Platform :=
  if p.vel_y > 0 ∧ p.y + p.height - p.vel_y ≤ pl.y + 5 then
    let p := { p with y := pl.y - p.height, vel_y := 0, on_ground := true }
    if pl.platform_type = PlatformType.BOUNCY then
      ({ p with vel_y := cfg.jumpStrength * 1.5, on_ground := false }, pl)
    else if pl.platform_type = PlatformType.CRUMBLING then
      (p, pl.start_crumble)
    else (p, pl)
  else (p, pl)

/-- Lines 132-136: reset on_ground, then test every platform in order,
resolving each collision (platform objects are mutated in place in the
source, hence the updated list is returned). -/
def Player.collide (cfg : Config) (platforms : List Platform) (p : Player) :
    Player × List Platform :=
  platforms.foldl
    (fun acc pl =>
      if acc.1.check_collision pl then
        let r := acc.1.handle_collision cfg pl
        (r.1, acc.2 ++ [r.2])
      else (acc.1, acc.2 ++ [pl]))
    ({ p with on_ground := false }, [])

/-- `Player.update(keys, platforms)` (lines 61-136), as the sequential
composition of the phases above, in source order. -/
def Player.update (cfg : Config) (sq : ℚ → ℚ) (keys : Keys)
    (platforms : List Platform) (p : Player) : Player × List Platform :=
  let p := p.moveInput cfg keys
  let p := p.coyoteStep cfg
  let p := p.jumpStep cfg keys
  let p := p.dashStart cfg sq keys
  let p := p.dashTick cfg
  let p := p.cooldownStep
  let p := p.gravityStep cfg
  let p := p.integrate
  p.collide cfg platforms

/-- The deterministic interface of Python's global `random` module as the
source uses it: `seedFn` is `random.seed` (it replaces the stream state),
`randint lo hi` draws an integer, `random` draws a rational in `[0, 1)`.
The generator definitions below are parametric in the stream type and in
these functions; every claim proved over all of them in particular holds
for the Mersenne-Twister stream of CPython. -/
structure RandomLib (R : Type) where
  seedFn : Int → R
  randint : Int → Int → R → Int × R
  random : R → ℚ × R

/-- `class PlatformGenerator` state (lines 250-257): the live platform
list, the last emitted position, the derived difficulty, the stored seed
and the next object identity to allocate. -/
structure GenState where
  seed : Int
  platforms : List Platform
  last_platform_x : ℚ
  last_platform_y : ℚ
  difficulty : ℚ
  next_pid : Nat
deriving DecidableEq

/-- `generate_starting_platform` (lines 264-269). -/
def generate_starting_platform (st : GenState) : GenState :=
  { st with
    platforms := st.platforms ++ [Platform.make st.next_pid 0 400 250 PlatformType.NORMAL],
    next_pid := st.next_pid + 1,
    last_platform_x := 0, last_platform_y := 400 }

/-- `choose_platform_type` (lines 310-324). -/
def choose_platform_type {R : Type} (lib : RandomLib R) (st : GenState) (g : R) :
    PlatformType × R :=
  if st.difficulty < 0.5 then (PlatformType.NORMAL, g)
  else
    let d := lib.random g
    let rand_val := d.1
    let g := d.2
    if rand_val < 0.5 then (PlatformType.NORMAL, g)
    else if rand_val < 0.65 + st.difficulty * 0.05 then (PlatformType.CRUMBLING, g)
    else if rand_val < 0.8 + st.difficulty * 0.03 then (PlatformType.BOUNCY, g)
    else (PlatformType.MOVING, g)

/-- `generate_platform` (lines 271-308): spacing floored at 80, vertical
offset clamped into [150, SCREEN_HEIGHT - 100], width floored at 60,
type chosen by difficulty; appends the platform, advances last_x/last_y
and recomputes difficulty = min(new_x / 1000, 5). -/
def generate_platform {R : Type} (cfg : Config) (lib : RandomLib R) :
    GenState × R → GenState × R := fun sg =>
  let st := sg.1
  let g := sg.2
  let base_spacing : Int := 150
  let spacing_variance : Int := 50 + pyInt (st.difficulty * 30)
  let d1 := lib.randint (-50) spacing_variance g
  let spacing : Int := max 80 (base_spacing + d1.1)
  let vertical_variance : Int := 80 + pyInt (st.difficulty * 40)
  let d2 := lib.randint (-vertical_variance) vertical_variance d1.2
  let new_x : ℚ := st.last_platform_x + (spacing : ℚ)
  let new_y : ℚ := st.last_platform_y + (d2.1 : ℚ)
  let new_y : ℚ := max 150 (min new_y (cfg.screenHeight - 100))
  let base_width : Int := 150
  let width_reduction : Int := pyInt (st.difficulty * 20)
  let d3 := lib.randint (-30) 30 d2.2
  let width : ℚ := max 60 ((base_width - width_reduction + d3.1 : Int) : ℚ)
  let d4 := choose_platform_type lib st d3.2
  let platform := Platform.make st.next_pid new_x new_y width d4.1
  ({ st with platforms := st.platforms ++ [platform],
             next_pid := st.next_pid + 1,
             last_platform_x := new_x,
             last_platform_y := new_y,
             difficulty := min (new_x / 1000) 5 }, d4.2)

/-- `PlatformGenerator.__init__(seed=None)` (lines 250-262).
`seed if seed else random.randint(0, 1000000)`: in Python both `None`
and `0` are falsy, so both draw a fresh seed from the current global
stream; `random.seed(self.seed)` then replaces the stream state.  The
construction emits the fixed starting platform and 15 generated ones. -/
def genInit {R : Type} (cfg : Config) (lib : RandomLib R) (seed : Option Int)
    (g : R) : GenState × R :=
  let s : Int :=
    match seed with
    | some s => if s = 0 then (lib.randint 0 1000000 g).1 else s
    | none => (lib.randint 0 1000000 g).1
  let g := lib.seedFn s
  let st : GenState :=
    { seed := s, platforms := [], last_platform_x := 0,
      last_platform_y := 400, difficulty := 0, next_pid := 0 }
  let st := generate_starting_platform st
  -- `for _ in range(15): self.generate_platform()`, unrolled
  let sg := generate_platform cfg lib (st, g)
  let sg := generate_platform cfg lib sg
  let sg := generate_platform cfg lib sg
  let sg := generate_platform cfg lib sg
  let sg := generate_platform cfg lib sg
  let sg := generate_platform cfg lib sg
  let sg := generate_platform cfg lib sg
  let sg := generate_platform cfg lib sg
  let sg := generate_platform cfg lib sg
  let sg := generate_platform cfg lib sg
  let sg := generate_platform cfg lib sg
  let sg := generate_platform cfg lib sg
  let sg := generate_platform cfg lib sg
  let sg := generate_platform cfg lib sg
  generate_platform cfg lib sg

/-- The `while self.last_platform_x < camera_x + SCREEN_WIDTH + 500`
loop of `PlatformGenerator.update` (lines 337-338), written with
explicit fuel.  `genLoopF_exit` below proves that the fuel chosen in
`genUpdate` always suffices, i.e. that the loop runs to its exit
condition exactly as the source's `while` does. -/
def genLoopF {R : Type} (cfg : Config) (lib : RandomLib R) (bound : ℚ) :
    Nat → GenState × R → GenState × R
  | 0, sg => sg
  | n + 1, sg =>
    if sg.1.last_platform_x < bound then
      genLoopF cfg lib bound n (generate_platform cfg lib sg)
    else sg

/-- Fuel for `genLoopF`: each iteration advances `last_platform_x` by at
least 80, so `⌈bound - last_platform_x⌉` iterations always suffice. -/
def loopFuel (bound : ℚ) (st : GenState) : Nat :=
  (Int.ceil (bound - st.last_platform_x)).toNat

/-- `PlatformGenerator.update(player)` (lines 326-342): prune platforms
more than 500 behind `camera_x = player.x - SCREEN_WIDTH // 3`, generate
ahead up to `camera_x + SCREEN_WIDTH + 500`, then update every platform. -/
def genUpdate {R : Type} (cfg : Config) (lib : RandomLib R) (player_x : ℚ) :
    GenState × R → GenState × R := fun sg =>
  let st := sg.1
  let g := sg.2
  let camera_x : ℚ := player_x - ((Int.floor (cfg.screenWidth / 3) : Int) : ℚ)
  let st := { st with platforms := st.platforms.filter (fun p => p.x > camera_x - 500) }
  let bound : ℚ := camera_x + cfg.screenWidth + 500
  let r := genLoopF cfg lib bound (loopFuel bound st) (st, g)
  ({ r.1 with platforms := r.1.platforms.map Platform.update }, r.2)

/-- `get_active_platforms` (lines 344-346). -/
def get_active_platforms (st : GenState) : List Platform :=
  st.platforms.filter (fun p => p.active)

/-- `class Camera` (lines 349-376). -/
structure Camera where
  x : ℚ
  y : ℚ
  target_x : ℚ
  target_y : ℚ
  smoothness : ℚ
deriving DecidableEq

def Camera.make : Camera := ⟨0, 0, 0, 0, 0.1⟩

/-- `Camera.update(player)` (lines 359-370). -/
def Camera.update (cfg : Config) (player : Player) (c : Camera) : Camera :=
  let tx := max 0 (player.x - ((Int.floor (cfg.screenWidth / 3) : Int) : ℚ))
  let ty := player.y - ((Int.floor (cfg.screenHeight / 2) : Int) : ℚ)
  { c with target_x := tx, target_y := ty,
           x := c.x + (tx - c.x) * c.smoothness,
           y := c.y + (ty - c.y) * c.smoothness }

/-- `Camera.get_y` (lines 375-376): `int(self.y)`. -/
def Camera.get_y (c : Camera) : Int := pyInt c.y

/-- The session state owned by `class Game` (lines 392-399). -/
structure GameState where
  player : Player
  generator : GenState
  camera : Camera
  score : Int
  game_over : Bool
deriving DecidableEq

/-- `Game.reset_game` (lines 392-399): draw a fresh seed, construct
Player(100, 300), PlatformGenerator(seed), Camera, zero the score and
clear the terminal flag.  No configuration check of any kind occurs. -/
def reset_game {R : Type} (cfg : Config) (lib : RandomLib R) (g : R) :
    GameState × R :=
  let d := lib.randint 0 1000000 g
  let r := genInit cfg lib (some d.1) d.2
  ({ player := Player.make 100 300, generator := r.1, camera := Camera.make,
     score := 0, game_over := false }, r.2)

/-- Writing the player's platform mutations back into the generator's
list: the source's `get_active_platforms()` returns a new list holding
references to the same `Platform` objects, so a mutation made during
collision handling is visible through the generator's own list.  Here
object identity is the `pid` field. -/
def mergePlatforms (full updated : List Platform) : List Platform :=
  full.map (fun p => (updated.find? (fun q => q.pid = p.pid)).getD p)

/-- `Game.update` (lines 412-433): a no-op once `game_over` is set;
otherwise generator update, player update against the active platforms,
camera update, monotone score from `int(player.x / 10)`, and the
fell-off check `player.y > camera.get_y() + SCREEN_HEIGHT + 100`. -/
def gameUpdate {R : Type} (cfg : Config) (lib : RandomLib R) (sq : ℚ → ℚ)
    (keys : Keys) : GameState × R → GameState × R := fun sg =>
  let gs := sg.1
  if gs.game_over then sg
  else
    let r := genUpdate cfg lib gs.player.x (gs.generator, sg.2)
    let pr := Player.update cfg sq keys (get_active_platforms r.1) gs.player
    let gen := { r.1 with platforms := mergePlatforms r.1.platforms pr.2 }
    let camera := gs.camera.update cfg pr.1
    let score := max gs.score (pyInt (pr.1.x / 10))
    let over := decide (pr.1.y > ((camera.get_y : Int) : ℚ) + cfg.screenHeight + 100)
    ({ player := pr.1, generator := gen, camera := camera,
       score := score, game_over := over }, r.2)

/-- A concrete instance of the random interface, used for the concrete
counterexamples and witnesses below (any deterministic instance serves:
the refuted statements are claimed for every stream). -/
def intLib : RandomLib Int where
  seedFn s := s
  randint lo hi g := (lo + g % (hi - lo + 1), g + 1)
  random g := (((g % 10 : Int) : ℚ) / 10, g + 1)

/-- A second concrete instance whose draws are just 0 (on stream state 0)
or 1 (on any other state); it keeps the arithmetic of concrete generator
runs small while still letting drawn values depend on the stream state. -/
def flagLib : RandomLib Int where
  seedFn s := s
  randint _ _ g := (if g = 0 then 0 else 1, g + 1)
  random g := (0, g + 1)

/-- A stand-in for `math.sqrt` in scenarios whose control flow never
reaches the dash-normalisation branch. -/
def sqZero : ℚ → ℚ := fun _ => 0

/-- The observable sequence the seeding claims speak about: x, y, width
and type of each live platform, in list order. -/
def platSeq (st : GenState) : List (ℚ × ℚ × ℚ × PlatformType) :=
  st.platforms.map (fun p => (p.x, p.y, p.width, p.platform_type))

/-- `n` further `generate_platform()` calls after construction. -/
def genCalls {R : Type} (cfg : Config) (lib : RandomLib R) (n : Nat) :
    GenState × R → GenState × R :=
  (generate_platform cfg lib)^[n]

/-- The generator states reachable by construction followed by any
sequence of `generate_platform()` and `update(player)` calls. -/
inductive GenReach {R : Type} (cfg : Config) (lib : RandomLib R) : GenState × R → Prop
  | init : ∀ (seed : Option Int) (g : R), GenReach cfg lib (genInit cfg lib seed g)
  | gen : ∀ sg, GenReach cfg lib sg → GenReach cfg lib (generate_platform cfg lib sg)
  | upd : ∀ (px : ℚ) sg, GenReach cfg lib sg → GenReach cfg lib (genUpdate cfg lib px sg)

/-- The invariant behind claim C3: the last emitted x is non-negative
and difficulty is its clamped scaling. -/
def DiffInv (st : GenState) : Prop :=
  0 ≤ st.last_platform_x ∧ st.difficulty = clampQ (st.last_platform_x / 1000) 0 5

/-- A malformed configuration: negative screen extents (widths/bounds)
and a non-positive coyote grace length. -/
def badConfig : Config :=
  { gravity := 0.7, playerSpeed := 6, jumpStrength := -15, dashSpeed := 20,
    dashDuration := 10, coyoteTime := -6, screenWidth := -1000, screenHeight := -600 }

/-- A player one tick from the end of a straight-up dash: dashing, with
zero horizontal velocity and one tick left on the dash timer. -/
def pUpDash : Player :=
  { x := 0, y := 0, width := 30, height := 40, vel_x := 0, vel_y := -20,
    on_ground := false, dash_timer := 1, dash_cooldown := 55, dashing := true,
    coyote_timer := 0 }

/-- A player one tick from the end of a rightward dash (for the witness). -/
def pRightDash : Player :=
  { pUpDash with vel_x := 5 }

/-- An airborne player with no dash in progress and a full coyote window
of `ct` ticks, as left behind by the last grounded tick. -/
def airborne (x y vx vy : ℚ) (ct : Int) : Player :=
  { x := x, y := y, width := 30, height := 40, vel_x := vx, vel_y := vy,
    on_ground := false, dash_timer := 0, dash_cooldown := 0, dashing := false,
    coyote_timer := ct }

/-- One airborne tick with no keys held and no platforms in reach. -/
def airTick : Player → Player :=
  fun q => (Player.update defaultConfig sqZero noKeys [] q).1

/-- A third concrete random instance: the first draw (on stream state 0)
is -70, every later draw is 1000000.  Under it the generator's catch-up
loop emits one platform just 80 units ahead of a lagging frontier and
then jumps far past the generation bound, so concrete `update` runs stay
tiny. -/
def jumpLib : RandomLib Int where
  seedFn s := s
  randint _ _ g := (if g = 0 then -70 else 1000000, g + 1)
  random g := (0, g + 1)

/-- A generator state whose frontier (`last_platform_x = 0`) lags far
behind a teleported player. -/
def stLag : GenState :=
  { seed := 1, platforms := [], last_platform_x := 0, last_platform_y := 400,
    difficulty := 0, next_pid := 0 }

/-- A generator state whose frontier is already far ahead (no pruning
and no generation happens for a player near the origin). -/
def genFar : GenState :=
  { seed := 1, platforms := [], last_platform_x := 2000, last_platform_y := 400,
    difficulty := 2, next_pid := 0 }

/-- A session state that is already terminal. -/
def gsOver : GameState :=
  { player := Player.make 100 300, generator := genFar, camera := Camera.make,
    score := 37, game_over := true }

/-- A live session state (for instantiating the terminal-transition rule). -/
def gsLive : GameState :=
  { player := Player.make 0 0, generator := genFar, camera := Camera.make,
    score := 0, game_over := false }

/-- A live session state one tick away from the fell-off check firing:
after the tick the player is at y = 700.3 and the camera at y = 0.5, so
`int(camera.y) + 600 + 100 = 700 < 700.3 ≤ 700.5 = camera.y + 600 + 100`. -/
def gsLive9 : GameState :=
  { player := { Player.make 0 (3498 / 5) with on_ground := false },
    generator := genFar,
    camera := { x := 0, y := -3953 / 90, target_x := 0, target_y := 0, smoothness := 0.1 },
    score := 0, game_over := false }

/-! ## Claim C1: configuration validation at session start -/

/-- C1, counterexample.  The claim says the core validates the
configuration constants at session start and fails fast with a
configuration error for malformed configuration.  In the code,
`Game.reset_game` performs no check whatsoever: with `badConfig`
(negative screen extents, non-positive coyote grace) the session is
constructed exactly as with a well-formed configuration — flag clear,
score zero, player spawned — and no error value exists anywhere in the
construction. -/
theorem C1_no_validation_counterexample :
    (reset_game badConfig intLib 0).1.game_over = false ∧
    (reset_game badConfig intLib 0).1.score = 0 ∧
    (reset_game badConfig intLib 0).1.player.width = 30 :=
  ⟨rfl, rfl, rfl⟩

/-- C1, amended.  Session start performs no configuration validation at
all: for every configuration (malformed ones included) and every random
stream, `reset_game` unconditionally draws a seed and constructs
Player(100, 300), the platform generator for that seed, a fresh camera,
score 0 and a cleared terminal flag; it has no error outcome. -/
theorem C1_reset_unconditional {R : Type} (lib : RandomLib R) (cfg : Config) (g : R) :
    (reset_game cfg lib g).1.game_over = false ∧
    (reset_game cfg lib g).1.score = 0 ∧
    (reset_game cfg lib g).1.player = Player.make 100 300 ∧
    (reset_game cfg lib g).1.camera = Camera.make ∧
    (reset_game cfg lib g).1.generator =
      (genInit cfg lib (some (lib.randint 0 1000000 g).1) (lib.randint 0 1000000 g).2).1 :=
  ⟨rfl, rfl, rfl, rfl, rfl⟩

/-! ## Claim C6: bouncy landings -/

/-- C6: whenever collision resolution treats a contact with a BOUNCY
platform as a landing (downward motion plus the 5-unit tolerance test on
the pre-movement bottom edge), the resolution leaves `on_ground = false`
and vertical velocity exactly `1.5 * JUMP_STRENGTH`, regardless of the
incoming `vel_y` magnitude. -/
theorem C6_bouncy_landing (cfg : Config) (p : Player) (pl : Platform)
    (htype : pl.platform_type = PlatformType.BOUNCY)
    (hvy : p.vel_y > 0)
    (htol : p.y + p.height - p.vel_y ≤ pl.y + 5) :
    (p.handle_collision cfg pl).1.on_ground = false ∧
    (p.handle_collision cfg pl).1.vel_y = cfg.jumpStrength * 1.5 := by
  unfold Player.handle_collision
  rw [if_pos ⟨hvy, htol⟩, if_pos htype]
  exact ⟨rfl, rfl⟩

/-- C6, witness: a player falling at speed 10 onto a bouncy platform. -/
theorem C6_bouncy_landing_witness :
    ((Platform.make 0 40 100 100 PlatformType.BOUNCY).platform_type = PlatformType.BOUNCY ∧
      (Player.make 0 0).vel_y + 10 > 0) ∧
    (({ Player.make 0 0 with vel_y := 10 }.handle_collision defaultConfig
        (Platform.make 0 40 100 100 PlatformType.BOUNCY)).1.on_ground = false ∧
      ({ Player.make 0 0 with vel_y := 10 }.handle_collision defaultConfig
        (Platform.make 0 40 100 100 PlatformType.BOUNCY)).1.vel_y =
        defaultConfig.jumpStrength * 1.5) := by
  refine ⟨⟨rfl, by norm_num [Player.make]⟩, ?_⟩
  exact C6_bouncy_landing defaultConfig _ _ rfl (by norm_num [Player.make])
    (by norm_num [Player.make, Platform.make])

/-! ## Claim C7: start_crumble idempotence -/

/-- C7: for a crumbling platform whose decay countdown is already
running (`crumble_timer > 0`), a further `start_crumble()` call leaves
the platform — in particular `crumble_timer` — unchanged. -/
theorem C7_start_crumble_idempotent (pl : Platform)
    (htype : pl.platform_type = PlatformType.CRUMBLING)
    (h : pl.crumble_timer > 0) :
    pl.start_crumble = pl := by
  unfold Platform.start_crumble
  rw [if_neg]
  omega

/-- C7, witness: a crumbling platform 5 ticks into its countdown. -/
theorem C7_start_crumble_idempotent_witness :
    ({ Platform.make 0 0 400 100 PlatformType.CRUMBLING with crumble_timer := 5 }.crumble_timer > 0) ∧
    ({ Platform.make 0 0 400 100 PlatformType.CRUMBLING with crumble_timer := 5 }.start_crumble =
      { Platform.make 0 0 400 100 PlatformType.CRUMBLING with crumble_timer := 5 }) :=
  ⟨by norm_num, C7_start_crumble_idempotent _ rfl (by norm_num)⟩

/-! ## Claims C10 and C4: seeding -/

theorem generate_platform_seed {R : Type} (cfg : Config) (lib : RandomLib R)
    (sg : GenState × R) : (generate_platform cfg lib sg).1.seed = sg.1.seed := rfl

/-- C10: `seed if seed else random.randint(0, 1000000)` treats `0` like
an absent seed, because `0` is falsy in Python: construction with seed 0
is literally the same as construction with no seed; the seed actually
stored is drawn from the current global stream (so a seed of 0 does not
pin down the platform sequence); and every nonzero seed yields a
construction independent of the incoming stream state (hence a fixed,
reproducible sequence). -/
theorem C10_seed_zero_falsy {R : Type} (lib : RandomLib R) (cfg : Config) :
    (∀ g : R, genInit cfg lib (some 0) g = genInit cfg lib none g) ∧
    (∀ g : R, (genInit cfg lib (some 0) g).1.seed = (lib.randint 0 1000000 g).1) ∧
    (∀ s : Int, s ≠ 0 → ∀ g g' : R,
      genInit cfg lib (some s) g = genInit cfg lib (some s) g') := by
  refine ⟨fun g => rfl, fun g => ?_, fun s hs g g' => ?_⟩
  · simp only [genInit, generate_platform_seed, if_pos rfl]
    rfl
  · simp only [genInit, if_neg hs]

/-- C10, witness for the nonzero-seed part (seed 7, two different
incoming stream states). -/
theorem C10_seed_zero_falsy_witness :
    (7 : Int) ≠ 0 ∧
    genInit defaultConfig intLib (some 7) 0 = genInit defaultConfig intLib (some 7) 99 :=
  ⟨by norm_num, (C10_seed_zero_falsy intLib defaultConfig).2.2 7 (by norm_num) 0 99⟩

set_option maxHeartbeats 8000000 in
set_option maxRecDepth 100000 in
/-- C4, counterexample.  The claim: two generators constructed with the
same seed produce identical platform sequences.  With seed 0 — the same
seed for both — it fails: `0` is falsy, so each construction draws its
own fresh seed from the process-global stream, and the second
construction (performed after the first has advanced that stream) lays
its platforms at different x positions: here the first generator's
platforms sit at x = 0, 150, 301, 452, ... and the second's at
x = 0, 151, 302, 453, .... -/
theorem C4_same_seed_counterexample :
    ((genInit defaultConfig flagLib (some 0) 0).1.platforms.map (fun p => p.x)) ≠
    ((genInit defaultConfig flagLib (some 0)
        (genInit defaultConfig flagLib (some 0) 0).2).1.platforms.map (fun p => p.x)) := by
  norm_num [genInit, generate_platform, generate_starting_platform, choose_platform_type,
    Platform.make, pyInt, flagLib, Int.floor_intCast, max_def, min_def]

/-- C4, amended: two generators constructed with the same *nonzero* seed
produce identical platform sequences (same x, y, width and type, in the
same order) over the same number of further `generate_platform()` calls,
whatever the state of the global random stream at each construction
(`random.seed` makes the construction independent of it).  For seed 0
both constructions draw fresh seeds instead (see the counterexample). -/
theorem C4_same_seed_same_sequence {R : Type} (cfg : Config) (lib : RandomLib R)
    (s : Int) (hs : s ≠ 0) (n : Nat) (g g' : R) :
    platSeq (genCalls cfg lib n (genInit cfg lib (some s) g)).1 =
    platSeq (genCalls cfg lib n (genInit cfg lib (some s) g')).1 := by
  have h : genInit cfg lib (some s) g = genInit cfg lib (some s) g' := by
    simp only [genInit, if_neg hs]
  rw [h]

/-- C4, witness: seed 7, stream states 0 and 99, three further calls. -/
theorem C4_same_seed_same_sequence_witness :
    (7 : Int) ≠ 0 ∧
    platSeq (genCalls defaultConfig intLib 3 (genInit defaultConfig intLib (some 7) 0)).1 =
    platSeq (genCalls defaultConfig intLib 3 (genInit defaultConfig intLib (some 7) 99)).1 :=
  ⟨by norm_num, C4_same_seed_same_sequence defaultConfig intLib 7 (by norm_num) 3 0 99⟩

/-! ## Claim C3: the difficulty invariant -/

theorem generate_platform_last_ge {R : Type} (cfg : Config) (lib : RandomLib R)
    (sg : GenState × R) :
    sg.1.last_platform_x + 80 ≤ (generate_platform cfg lib sg).1.last_platform_x := by
  show sg.1.last_platform_x + 80 ≤ sg.1.last_platform_x +
    ((max 80 (150 + (lib.randint (-50) (50 + pyInt (sg.1.difficulty * 30)) sg.2).1) : Int) : ℚ)
  have h : (80 : Int) ≤
      max 80 (150 + (lib.randint (-50) (50 + pyInt (sg.1.difficulty * 30)) sg.2).1) :=
    le_max_left _ _
  have h2 : ((80 : ℚ)) ≤
      ((max 80 (150 + (lib.randint (-50) (50 + pyInt (sg.1.difficulty * 30)) sg.2).1) : Int) : ℚ) := by
    exact_mod_cast h
  linarith

theorem generate_platform_difficulty {R : Type} (cfg : Config) (lib : RandomLib R)
    (sg : GenState × R) :
    (generate_platform cfg lib sg).1.difficulty =
      min ((generate_platform cfg lib sg).1.last_platform_x / 1000) 5 := rfl

theorem generate_platform_platforms {R : Type} (cfg : Config) (lib : RandomLib R)
    (sg : GenState × R) :
    ∃ pl : Platform, (generate_platform cfg lib sg).1.platforms = sg.1.platforms ++ [pl] ∧
      pl.x = (generate_platform cfg lib sg).1.last_platform_x :=
  ⟨_, rfl, rfl⟩

theorem generate_platform_inv {R : Type} (cfg : Config) (lib : RandomLib R)
    (sg : GenState × R) (h : DiffInv sg.1) : DiffInv (generate_platform cfg lib sg).1 := by
  obtain ⟨h0, _⟩ := h
  have hge := generate_platform_last_ge cfg lib sg
  have hx : 0 ≤ (generate_platform cfg lib sg).1.last_platform_x := by linarith
  refine ⟨hx, ?_⟩
  rw [generate_platform_difficulty]
  unfold clampQ
  have hv : 0 ≤ min ((generate_platform cfg lib sg).1.last_platform_x / 1000) 5 :=
    le_min (by positivity) (by norm_num)
  exact (max_eq_right hv).symm

theorem genLoopF_inv {R : Type} (cfg : Config) (lib : RandomLib R) (B : ℚ) :
    ∀ (n : Nat) (sg : GenState × R), DiffInv sg.1 → DiffInv (genLoopF cfg lib B n sg).1 := by
  intro n
  induction n with
  | zero => exact fun sg h => h
  | succ n ih =>
    intro sg h
    simp only [genLoopF]
    split
    · exact ih _ (generate_platform_inv cfg lib sg h)
    · exact h

theorem genUpdate_inv {R : Type} (cfg : Config) (lib : RandomLib R) (px : ℚ)
    (sg : GenState × R) (h : DiffInv sg.1) : DiffInv (genUpdate cfg lib px sg).1 :=
  genLoopF_inv cfg lib _ _ _ h

theorem genInit_inv {R : Type} (cfg : Config) (lib : RandomLib R) (seed : Option Int)
    (g : R) : DiffInv (genInit cfg lib seed g).1 := by
  unfold genInit
  iterate 15 apply generate_platform_inv
  exact ⟨le_refl 0, by norm_num [clampQ, generate_starting_platform]⟩

/-- C3: in every reachable generator state (after construction and any
sequence of `generate_platform()` and `update(player)` calls),
`difficulty = clamp(last_platform_x / 1000, 0, 5)`; no operation sets it
any other way. -/
theorem C3_difficulty_clamped {R : Type} (cfg : Config) (lib : RandomLib R)
    (sg : GenState × R) (h : GenReach cfg lib sg) :
    sg.1.difficulty = clampQ (sg.1.last_platform_x / 1000) 0 5 := by
  have hinv : DiffInv sg.1 := by
    induction h with
    | init seed g => exact genInit_inv cfg lib seed g
    | gen sg _ ih => exact generate_platform_inv cfg lib sg ih
    | upd px sg _ ih => exact genUpdate_inv cfg lib px sg ih
  exact hinv.2

/-- C3, witness: the freshly constructed generator for seed 5. -/
theorem C3_difficulty_clamped_witness :
    (genInit defaultConfig intLib (some 5) 0).1.difficulty =
      clampQ ((genInit defaultConfig intLib (some 5) 0).1.last_platform_x / 1000) 0 5 :=
  C3_difficulty_clamped defaultConfig intLib _ (GenReach.init (some 5) 0)

/-! ## Claim C5: pruning bound after update -/

theorem floor_1000_3 : (Int.floor ((1000 : ℚ) / 3)) = 333 := by
  rw [Int.floor_eq_iff] <;> norm_num

theorem Platform.update_x (p : Platform) : (Platform.update p).x = p.x := by
  simp only [Platform.update]
  split_ifs <;> rfl

theorem loopFuel_eq_zero (B : ℚ) (st : GenState) (h : B ≤ st.last_platform_x) :
    loopFuel B st = 0 := by
  unfold loopFuel
  rw [Int.toNat_eq_zero, Int.ceil_le]
  push_cast
  linarith

theorem loopFuel_pos (B : ℚ) (st : GenState) (h : st.last_platform_x < B) :
    0 < loopFuel B st := by
  unfold loopFuel
  have h2 : 0 < Int.ceil (B - st.last_platform_x) := Int.ceil_pos.mpr (by linarith)
  omega

theorem genLoopF_zero {R : Type} (cfg : Config) (lib : RandomLib R) (B : ℚ)
    (sg : GenState × R) : genLoopF cfg lib B 0 sg = sg := rfl

theorem genLoopF_step {R : Type} (cfg : Config) (lib : RandomLib R) (B : ℚ)
    (n : Nat) (sg : GenState × R) (hn : 0 < n) (h : sg.1.last_platform_x < B) :
    genLoopF cfg lib B n sg = genLoopF cfg lib B (n - 1) (generate_platform cfg lib sg) := by
  cases n with
  | zero => omega
  | succ m => simp only [genLoopF, if_pos h, Nat.succ_sub_one]

/-- The fuel passed to `genLoopF` by `genUpdate` always lets the loop
run to its exit condition, so the fuelled loop is the source's `while`
loop: whenever the fuel bound is respected, the loop only stops with
`last_platform_x ≥ bound`. -/
theorem genLoopF_exit {R : Type} (cfg : Config) (lib : RandomLib R) (B : ℚ) :
    ∀ (n : Nat) (sg : GenState × R), loopFuel B sg.1 ≤ n →
      B ≤ (genLoopF cfg lib B n sg).1.last_platform_x := by
  intro n
  induction n with
  | zero =>
    intro sg h
    rw [genLoopF_zero]
    unfold loopFuel at h
    have h2 : Int.ceil (B - sg.1.last_platform_x) ≤ 0 := by omega
    rw [Int.ceil_le] at h2
    push_cast at h2
    linarith
  | succ n ih =>
    intro sg h
    simp only [genLoopF]
    split
    · apply ih
      rename_i hcond
      have hge := generate_platform_last_ge cfg lib sg
      unfold loopFuel at h ⊢
      have hc1 : 0 < Int.ceil (B - sg.1.last_platform_x) := Int.ceil_pos.mpr (by linarith)
      have hc2 : Int.ceil (B - (generate_platform cfg lib sg).1.last_platform_x) ≤
          Int.ceil (B - sg.1.last_platform_x) - 80 := by
        have : B - (generate_platform cfg lib sg).1.last_platform_x ≤
            (B - sg.1.last_platform_x) - ((80 : Int) : ℚ) := by push_cast; linarith
        calc Int.ceil (B - (generate_platform cfg lib sg).1.last_platform_x) ≤
            Int.ceil ((B - sg.1.last_platform_x) - ((80 : Int) : ℚ)) := Int.ceil_mono this
          _ = Int.ceil (B - sg.1.last_platform_x) - 80 := Int.ceil_sub_int _ _
      omega
    · rename_i hcond
      push_neg at hcond
      exact hcond

theorem genLoopF_mem_mono {R : Type} (cfg : Config) (lib : RandomLib R) (B : ℚ) :
    ∀ (n : Nat) (sg : GenState × R) (p : Platform), p ∈ sg.1.platforms →
      p ∈ (genLoopF cfg lib B n sg).1.platforms := by
  intro n
  induction n with
  | zero => intro sg p h; exact h
  | succ n ih =>
    intro sg p h
    simp only [genLoopF]
    split
    · apply ih
      obtain ⟨pl, hps, _⟩ := generate_platform_platforms cfg lib sg
      rw [hps]
      exact List.mem_append_left _ h
    · exact h

/-- The platform list produced by `PlatformGenerator.update`, spelled
out: the survivors of the pruning filter plus the platforms generated by
the catch-up loop, each advanced once by `Platform.update`. -/
theorem genUpdate_platforms {R : Type} (cfg : Config) (lib : RandomLib R) (px : ℚ)
    (sg : GenState × R) :
    (genUpdate cfg lib px sg).1.platforms =
      ((genLoopF cfg lib
          (px - ((Int.floor (cfg.screenWidth / 3) : Int) : ℚ) + cfg.screenWidth + 500)
          (loopFuel (px - ((Int.floor (cfg.screenWidth / 3) : Int) : ℚ) + cfg.screenWidth + 500)
            { sg.1 with platforms :=
                (sg.1.platforms.filter (fun p =>
                  p.x > px - ((Int.floor (cfg.screenWidth / 3) : Int) : ℚ) - 500)) })
          ({ sg.1 with platforms :=
              (sg.1.platforms.filter (fun p =>
                p.x > px - ((Int.floor (cfg.screenWidth / 3) : Int) : ℚ) - 500)) },
            sg.2)).1.platforms).map
        Platform.update := rfl

theorem genLoopF_all_gt {R : Type} (cfg : Config) (lib : RandomLib R) (B camB : ℚ) :
    ∀ (n : Nat) (sg : GenState × R),
      (∀ p ∈ sg.1.platforms, camB - 500 < p.x) → camB - 580 < sg.1.last_platform_x →
      ((∀ p ∈ (genLoopF cfg lib B n sg).1.platforms, camB - 500 < p.x) ∧
        camB - 580 < (genLoopF cfg lib B n sg).1.last_platform_x) := by
  intro n
  induction n with
  | zero => intro sg h1 h2; exact ⟨h1, h2⟩
  | succ n ih =>
    intro sg h1 h2
    simp only [genLoopF]
    split
    · have hge := generate_platform_last_ge cfg lib sg
      obtain ⟨pl, hps, hx⟩ := generate_platform_platforms cfg lib sg
      apply ih
      · intro p hp
        rw [hps] at hp
        rcases List.mem_append.mp hp with hmem | hmem
        · exact h1 p hmem
        · have hpl : p = pl := List.mem_singleton.mp hmem
          rw [hpl, hx]
          linarith
      · linarith
    · exact ⟨h1, h2⟩

/-- C5, counterexample.  The claim asserts that after *any* call to
`update(player)` no remaining platform has x ≤ (P − screen_width/3) − 500.
It fails when the frontier lags far behind the player: pruning runs
*before* the catch-up generation, so platforms generated while catching
up are appended after the filter and can lie well behind the pruning
bound.  Here the player sits at P = 1000 with the frontier at x = 0; the
first generated platform lands at x = 80, far below
(1000 − 1000/3) − 500 = 500/3 ≈ 166.7, and stays in the live list. -/
theorem C5_pruning_counterexample :
    ∃ p ∈ (genUpdate defaultConfig jumpLib 1000 (stLag, 0)).1.platforms,
      p.x ≤ (1000 - 1000 / 3) - 500 := by
  obtain ⟨pl, hps, hx⟩ := generate_platform_platforms defaultConfig jumpLib
    ({ stLag with platforms := (stLag.platforms.filter (fun p =>
        p.x > 1000 - ((Int.floor (defaultConfig.screenWidth / 3) : Int) : ℚ) - 500)) }, 0)
  have hlast : (generate_platform defaultConfig jumpLib
      ({ stLag with platforms := (stLag.platforms.filter (fun p =>
          p.x > 1000 - ((Int.floor (defaultConfig.screenWidth / 3) : Int) : ℚ) - 500)) },
        0)).1.last_platform_x = 80 := by
    norm_num [generate_platform, stLag, jumpLib, pyInt, defaultConfig, max_def, min_def]
  have hcond : ({ stLag with platforms := (stLag.platforms.filter (fun p =>
      p.x > 1000 - ((Int.floor (defaultConfig.screenWidth / 3) : Int) : ℚ) - 500)) } :
        GenState).last_platform_x <
      1000 - ((Int.floor (defaultConfig.screenWidth / 3) : Int) : ℚ) +
        defaultConfig.screenWidth + 500 := by
    norm_num [stLag, defaultConfig, floor_1000_3]
  refine ⟨Platform.update pl, ?_, ?_⟩
  · rw [genUpdate_platforms]
    apply List.mem_map_of_mem
    rw [genLoopF_step _ _ _ _ _ (loopFuel_pos _ _ hcond) hcond]
    apply genLoopF_mem_mono
    rw [hps]
    simp
  · rw [Platform.update_x, hx, hlast]
    norm_num

/-- C5, amended: after `update(player)` with `player.x = P`, every
remaining platform has x strictly greater than (P − screen_width/3) − 500
*provided* the frontier was not lagging too far on entry, namely
`last_platform_x > (P − 333) − 580` (333 = screen_width // 3; 580 = the
500-unit pruning slack plus the 80-unit minimum spacing).  Survivors of
the pruning filter satisfy the bound by construction, and under the
proviso every platform appended by the catch-up loop lands at least 80
units past the lagging frontier, hence above the bound as well. -/
theorem C5_pruning_bound {R : Type} (lib : RandomLib R) (st : GenState) (g : R) (P : ℚ)
    (h : P - 913 < st.last_platform_x) :
    ∀ p ∈ (genUpdate defaultConfig lib P (st, g)).1.platforms,
      (P - 1000 / 3) - 500 < p.x := by
  intro p hp
  rw [genUpdate_platforms] at hp
  obtain ⟨q, hq, hpq⟩ := List.mem_map.mp hp
  have hcam : ((Int.floor (defaultConfig.screenWidth / 3) : Int) : ℚ) = 333 := by
    norm_num [defaultConfig, floor_1000_3]
  have h1 : ∀ r ∈ st.platforms.filter (fun p =>
      p.x > P - ((Int.floor (defaultConfig.screenWidth / 3) : Int) : ℚ) - 500),
      (P - 333) - 500 < r.x := by
    intro r hr
    have h3 := List.mem_filter.mp hr
    have h4 := of_decide_eq_true h3.2
    rw [hcam] at h4
    linarith
  have h2 : (P - 333) - 580 < st.last_platform_x := by linarith
  have hgt := (genLoopF_all_gt defaultConfig lib _ (P - 333) _ _ h1 h2).1 q hq
  rw [← hpq, Platform.update_x]
  linarith

/-- C5, witness: a frontier not lagging behind the player (P = 2500,
last_platform_x = 2000 > 2500 − 913). -/
theorem C5_pruning_bound_witness :
    ((2500 : ℚ) - 913 < genFar.last_platform_x) ∧
    (∀ p ∈ (genUpdate defaultConfig intLib 2500 (genFar, 0)).1.platforms,
      ((2500 : ℚ) - 1000 / 3) - 500 < p.x) :=
  ⟨by norm_num [genFar], C5_pruning_bound intLib genFar 0 2500 (by norm_num [genFar])⟩

/-! ## Player phase frame lemmas (for claims C2 and C8) -/

theorem Player.moveInput_of_dashing (cfg : Config) (keys : Keys) (p : Player)
    (h : p.dashing = true) : p.moveInput cfg keys = p := by
  unfold Player.moveInput
  rw [if_neg]
  simp [h]

theorem Player.coyoteStep_frame (cfg : Config) (p : Player) :
    ∃ ct, p.coyoteStep cfg = { p with coyote_timer := ct } := by
  unfold Player.coyoteStep
  split_ifs <;> exact ⟨_, rfl⟩

theorem Player.jumpStep_frame (cfg : Config) (keys : Keys) (p : Player) :
    ∃ vy ct og, p.jumpStep cfg keys =
      { p with vel_y := vy, coyote_timer := ct, on_ground := og } := by
  unfold Player.jumpStep
  split_ifs <;> exact ⟨_, _, _, rfl⟩

theorem Player.dashStart_of_dashing (cfg : Config) (sq : ℚ → ℚ) (keys : Keys) (p : Player)
    (h : p.dashing = true) : p.dashStart cfg sq keys = p := by
  unfold Player.dashStart
  rw [if_neg]
  simp [h]

theorem Player.dashTick_end (cfg : Config) (p : Player) (hd : p.dashing = true)
    (ht : p.dash_timer ≤ 1) :
    p.dashTick cfg = { p with
      dash_timer := p.dash_timer - 1
      dashing := false
      vel_x := if p.vel_x > 0 then cfg.playerSpeed else -cfg.playerSpeed } := by
  unfold Player.dashTick
  rw [if_pos hd, if_pos (show ({ p with dash_timer := p.dash_timer - 1 } :
    Player).dash_timer ≤ 0 by simp; omega)]

theorem Player.cooldownStep_frame (p : Player) :
    ∃ cd, p.cooldownStep = { p with dash_cooldown := cd } := by
  unfold Player.cooldownStep
  split_ifs <;> exact ⟨_, rfl⟩

theorem Player.gravityStep_frame (cfg : Config) (p : Player) :
    ∃ vy, p.gravityStep cfg = { p with vel_y := vy } := by
  unfold Player.gravityStep
  split_ifs <;> exact ⟨_, rfl⟩

theorem Player.handle_collision_frame (cfg : Config) (p : Player) (pl : Platform) :
    ∃ y vy og, (p.handle_collision cfg pl).1 =
      { p with y := y, vel_y := vy, on_ground := og } := by
  unfold Player.handle_collision
  split_ifs <;> exact ⟨_, _, _, rfl⟩

theorem Player.collide_step_frame (cfg : Config) (a : Player × List Platform) (hd : Platform) :
    ∃ y vy og pls,
      (if a.1.check_collision hd then
        let r := a.1.handle_collision cfg hd
        (r.1, a.2 ++ [r.2])
      else (a.1, a.2 ++ [hd])) = ({ a.1 with y := y, vel_y := vy, on_ground := og }, pls) := by
  split_ifs with hc
  · obtain ⟨y, vy, og, h⟩ := Player.handle_collision_frame cfg a.1 hd
    exact ⟨y, vy, og, _, by rw [Prod.ext_iff]; exact ⟨h, rfl⟩⟩
  · exact ⟨a.1.y, a.1.vel_y, a.1.on_ground, a.2 ++ [hd], rfl⟩

theorem Player.collide_foldl_frame (cfg : Config) :
    ∀ (l : List Platform) (a : Player × List Platform),
      ∃ y vy og, (l.foldl (fun acc pl =>
          if acc.1.check_collision pl then
            let r := acc.1.handle_collision cfg pl
            (r.1, acc.2 ++ [r.2])
          else (acc.1, acc.2 ++ [pl])) a).1 =
        { a.1 with y := y, vel_y := vy, on_ground := og } := by
  intro l
  induction l with
  | nil => intro a; exact ⟨a.1.y, a.1.vel_y, a.1.on_ground, rfl⟩
  | cons hd tl ih =>
    intro a
    rw [List.foldl_cons]
    obtain ⟨y1, vy1, og1, pls1, h1⟩ := Player.collide_step_frame cfg a hd
    rw [h1]
    obtain ⟨y2, vy2, og2, h2⟩ := ih ({ a.1 with y := y1, vel_y := vy1, on_ground := og1 }, pls1)
    rw [h2]
    exact ⟨y2, vy2, og2, rfl⟩

theorem Player.collide_frame (cfg : Config) (platforms : List Platform) (p : Player) :
    ∃ y vy og, (p.collide cfg platforms).1 =
      { p with y := y, vel_y := vy, on_ground := og } := by
  obtain ⟨y, vy, og, h⟩ := Player.collide_foldl_frame cfg platforms
    ({ p with on_ground := false }, [])
  exact ⟨y, vy, og, by unfold Player.collide; rw [h]⟩

/-! ## Claim C2: dash-end horizontal velocity -/

/-- C2, counterexample.  The claim says the dash-out velocity preserves
the sign of the dash direction *including dashes whose direction had zero
horizontal component*.  A straight-up dash has vel_x = 0 while dashing;
on the tick its timer expires, line 119 (`PLAYER_SPEED if vel_x > 0 else
-PLAYER_SPEED`) sends the player *leftward* at −6: the zero sign is not
preserved, a definite negative sign appears. -/
theorem C2_dash_end_counterexample :
    pUpDash.vel_x = 0 ∧
    (Player.update defaultConfig sqZero noKeys [] pUpDash).1.vel_x = -6 ∧
    ¬((Player.update defaultConfig sqZero noKeys [] pUpDash).1.vel_x = 0) := by
  refine ⟨rfl, ?_, ?_⟩ <;>
    norm_num [Player.update, Player.moveInput, Player.coyoteStep, Player.jumpStep,
      Player.dashStart, Player.dashTick, Player.cooldownStep, Player.gravityStep,
      Player.integrate, Player.collide, pUpDash, noKeys, sqZero, defaultConfig]

/-- C2, amended.  Whenever `dash_timer` reaches zero during
`Player.update` (the player enters the tick dashing with at most one
tick left), the dash ends and the horizontal velocity is set to
+PLAYER_SPEED if it was strictly positive and to −PLAYER_SPEED
otherwise — so dashes with zero horizontal component (straight up or
down) exit with −PLAYER_SPEED, not with a preserved zero. -/
theorem C2_dash_end (cfg : Config) (sq : ℚ → ℚ) (keys : Keys)
    (platforms : List Platform) (p : Player)
    (hd : p.dashing = true) (ht : p.dash_timer ≤ 1) :
    (Player.update cfg sq keys platforms p).1.dashing = false ∧
    (Player.update cfg sq keys platforms p).1.vel_x =
      (if p.vel_x > 0 then cfg.playerSpeed else -cfg.playerSpeed) := by
  have h1 : p.moveInput cfg keys = p := Player.moveInput_of_dashing cfg keys p hd
  obtain ⟨ct, h2⟩ := Player.coyoteStep_frame cfg p
  obtain ⟨vy, ct2, og, h3⟩ := Player.jumpStep_frame cfg keys { p with coyote_timer := ct }
  have h3' : ({ p with coyote_timer := ct } : Player).jumpStep cfg keys =
      { p with vel_y := vy, coyote_timer := ct2, on_ground := og } := h3
  have h4 : ({ p with vel_y := vy, coyote_timer := ct2, on_ground := og } : Player).dashStart
      cfg sq keys = { p with vel_y := vy, coyote_timer := ct2, on_ground := og } :=
    Player.dashStart_of_dashing cfg sq keys _ hd
  have h5 : ({ p with vel_y := vy, coyote_timer := ct2, on_ground := og } : Player).dashTick
      cfg = { p with
        vel_y := vy
        coyote_timer := ct2
        on_ground := og
        dash_timer := p.dash_timer - 1
        dashing := false
        vel_x := if p.vel_x > 0 then cfg.playerSpeed else -cfg.playerSpeed } :=
    Player.dashTick_end cfg _ hd ht
  obtain ⟨cd, h6⟩ := Player.cooldownStep_frame ({ p with
    vel_y := vy
    coyote_timer := ct2
    on_ground := og
    dash_timer := p.dash_timer - 1
    dashing := false
    vel_x := if p.vel_x > 0 then cfg.playerSpeed else -cfg.playerSpeed } : Player)
  have h6' : ({ p with
      vel_y := vy
      coyote_timer := ct2
      on_ground := og
      dash_timer := p.dash_timer - 1
      dashing := false
      vel_x := if p.vel_x > 0 then cfg.playerSpeed else -cfg.playerSpeed } :
        Player).cooldownStep = { p with
      vel_y := vy
      coyote_timer := ct2
      on_ground := og
      dash_timer := p.dash_timer - 1
      dashing := false
      vel_x := if p.vel_x > 0 then cfg.playerSpeed else -cfg.playerSpeed
      dash_cooldown := cd } := h6
  obtain ⟨vy2, h7⟩ := Player.gravityStep_frame cfg ({ p with
    vel_y := vy
    coyote_timer := ct2
    on_ground := og
    dash_timer := p.dash_timer - 1
    dashing := false
    vel_x := if p.vel_x > 0 then cfg.playerSpeed else -cfg.playerSpeed
    dash_cooldown := cd } : Player)
  have h7' : ({ p with
      vel_y := vy
      coyote_timer := ct2
      on_ground := og
      dash_timer := p.dash_timer - 1
      dashing := false
      vel_x := if p.vel_x > 0 then cfg.playerSpeed else -cfg.playerSpeed
      dash_cooldown := cd } : Player).gravityStep cfg = { p with
      coyote_timer := ct2
      on_ground := og
      dash_timer := p.dash_timer - 1
      dashing := false
      vel_x := if p.vel_x > 0 then cfg.playerSpeed else -cfg.playerSpeed
      dash_cooldown := cd
      vel_y := vy2 } := h7
  obtain ⟨y3, vy3, og3, h9⟩ := Player.collide_frame cfg platforms (({ p with
    coyote_timer := ct2
    on_ground := og
    dash_timer := p.dash_timer - 1
    dashing := false
    vel_x := if p.vel_x > 0 then cfg.playerSpeed else -cfg.playerSpeed
    dash_cooldown := cd
    vel_y := vy2 } : Player).integrate)
  have h9' : ((({ p with
      coyote_timer := ct2
      on_ground := og
      dash_timer := p.dash_timer - 1
      dashing := false
      vel_x := if p.vel_x > 0 then cfg.playerSpeed else -cfg.playerSpeed
      dash_cooldown := cd
      vel_y := vy2 } : Player).integrate).collide cfg platforms).1 = { p with
      coyote_timer := ct2
      dash_timer := p.dash_timer - 1
      dashing := false
      vel_x := if p.vel_x > 0 then cfg.playerSpeed else -cfg.playerSpeed
      dash_cooldown := cd
      x := p.x + (if p.vel_x > 0 then cfg.playerSpeed else -cfg.playerSpeed)
      y := y3
      vel_y := vy3
      on_ground := og3 } := h9
  have hfinal : (Player.update cfg sq keys platforms p).1 = { p with
      coyote_timer := ct2
      dash_timer := p.dash_timer - 1
      dashing := false
      vel_x := if p.vel_x > 0 then cfg.playerSpeed else -cfg.playerSpeed
      dash_cooldown := cd
      x := p.x + (if p.vel_x > 0 then cfg.playerSpeed else -cfg.playerSpeed)
      y := y3
      vel_y := vy3
      on_ground := og3 } := by
    show ((((((((p.moveInput cfg keys).coyoteStep cfg).jumpStep cfg
      keys).dashStart cfg sq keys).dashTick cfg).cooldownStep).gravityStep
      cfg).integrate.collide cfg platforms).1 = _
    rw [h1, h2, h3', h4, h5, h6', h7', h9']
  rw [hfinal]
  exact ⟨rfl, rfl⟩

/-- C2, witness: a rightward dash (vel_x = 5 > 0) ending this tick exits
at +6; hypotheses `dashing = true` and `dash_timer ≤ 1` hold for
`pRightDash`. -/
theorem C2_dash_end_witness :
    (pRightDash.dashing = true ∧ pRightDash.dash_timer ≤ 1) ∧
    ((Player.update defaultConfig sqZero noKeys [] pRightDash).1.dashing = false ∧
      (Player.update defaultConfig sqZero noKeys [] pRightDash).1.vel_x =
        (if pRightDash.vel_x > 0 then defaultConfig.playerSpeed
         else -defaultConfig.playerSpeed)) :=
  ⟨⟨rfl, by norm_num [pRightDash, pUpDash]⟩,
    C2_dash_end defaultConfig sqZero noKeys [] pRightDash rfl
      (by norm_num [pRightDash, pUpDash])⟩

/-! ## Claim C8: the coyote window -/

theorem airTick_eq (x y vx vy : ℚ) (ct : Int) (hct : 0 < ct) :
    airTick (airborne x y vx vy ct) = airborne x (y + (vy + defaultConfig.gravity)) 0
      (vy + defaultConfig.gravity) (ct - 1) := by
  unfold airTick
  simp [Player.update, Player.moveInput, Player.coyoteStep, Player.jumpStep,
    Player.dashStart, Player.dashTick, Player.cooldownStep, Player.gravityStep,
    Player.integrate, Player.collide, airborne, noKeys, sqZero, hct]

theorem airTick_iter (x y vx vy : ℚ) : ∀ (j : Nat), (j : Int) ≤ 6 →
    ∃ y' vx', airTick^[j] (airborne x y vx vy 6) =
      airborne x y' vx' (vy + (j : ℚ) * defaultConfig.gravity) (6 - (j : Int)) := by
  intro j
  induction j with
  | zero =>
    intro _
    exact ⟨y, vx, by norm_num⟩
  | succ j ih =>
    intro hj
    obtain ⟨y', vx', h⟩ := ih (by push_cast at hj ⊢; linarith)
    refine ⟨y' + (vy + (j : ℚ) * defaultConfig.gravity + defaultConfig.gravity), 0, ?_⟩
    rw [Function.iterate_succ_apply', h, airTick_eq _ _ _ _ _ (by push_cast at hj ⊢; omega)]
    congr 1 <;> push_cast <;> ring

theorem jumpTick_succ (x y vx vy : ℚ) (ct : Int) (hct : 1 < ct) (hv : 0 ≤ vy) :
    (Player.update defaultConfig sqZero jumpKeys [] (airborne x y vx vy ct)).1.vel_y =
      defaultConfig.jumpStrength + defaultConfig.gravity := by
  simp [Player.update, Player.moveInput, Player.coyoteStep, Player.jumpStep,
    Player.dashStart, Player.dashTick, Player.cooldownStep, Player.gravityStep,
    Player.integrate, Player.collide, airborne, jumpKeys, noKeys, sqZero, hv,
    show (0 : Int) < ct by omega, show (0 : Int) < ct - 1 by omega]

theorem jumpTick_fail (x y vx vy : ℚ) (ct : Int) (hct : ct ≤ 1) :
    (Player.update defaultConfig sqZero jumpKeys [] (airborne x y vx vy ct)).1.vel_y =
      vy + defaultConfig.gravity := by
  by_cases h : 0 < ct
  · have hct1 : ct = 1 := by omega
    subst hct1
    simp [Player.update, Player.moveInput, Player.coyoteStep, Player.jumpStep,
      Player.dashStart, Player.dashTick, Player.cooldownStep, Player.gravityStep,
      Player.integrate, Player.collide, airborne, jumpKeys, noKeys, sqZero]
  · simp [Player.update, Player.moveInput, Player.coyoteStep, Player.jumpStep,
      Player.dashStart, Player.dashTick, Player.cooldownStep, Player.gravityStep,
      Player.integrate, Player.collide, airborne, jumpKeys, noKeys, sqZero, h]

set_option maxHeartbeats 1000000 in
/-- C8, counterexample.  COYOTE_TIME = 6, yet a jump pressed on the 6th
tick after leaving the ground fails: the timer is decremented *before*
the jump check inside the same update, so by the 6th airborne tick it
reads 0.  Starting from the just-left-the-ground state (coyote_timer = 6,
vy = 0 ≥ 0 throughout), five key-less ticks pass, then Z is pressed: the
resulting vertical velocity is 6 · 0.7 = 4.2 — still falling, no jump
impulse was applied — although the claim places tick 6 inside the
window. -/
theorem C8_coyote_counterexample :
    (Player.update defaultConfig sqZero jumpKeys []
      (airTick^[5] (airborne 0 0 0 0 6))).1.vel_y = 21 / 5 ∧ (0 : ℚ) < 21 / 5 := by
  obtain ⟨y', vx', h⟩ := airTick_iter 0 0 0 0 5 (by norm_num)
  rw [h, jumpTick_fail _ _ _ _ _ (by norm_num)]
  norm_num [defaultConfig]

/-- C8, amended.  A jump input succeeds on each of the first
COYOTE_TIME − 1 = 5 ticks after the player leaves the ground (given
vy ≥ 0): the update applies the jump impulse and then gravity, leaving
vel_y = JUMP_STRENGTH + GRAVITY.  On tick COYOTE_TIME = 6 the input
fails with no jump impulse — only gravity acts on the velocity — because
coyote_timer is decremented before the jump check within the same
update. -/
theorem C8_coyote_window (x y vx vy : ℚ) (hv : 0 ≤ vy) :
    (∀ j : Nat, j ≤ 4 →
      (Player.update defaultConfig sqZero jumpKeys []
        (airTick^[j] (airborne x y vx vy 6))).1.vel_y =
          defaultConfig.jumpStrength + defaultConfig.gravity) ∧
    (Player.update defaultConfig sqZero jumpKeys []
        (airTick^[5] (airborne x y vx vy 6))).1.vel_y =
      vy + 5 * defaultConfig.gravity + defaultConfig.gravity := by
  constructor
  · intro j hj
    obtain ⟨y', vx', h⟩ := airTick_iter x y vx vy j (by push_cast; omega)
    have hg : (0 : ℚ) ≤ vy + (j : ℚ) * defaultConfig.gravity := by
      have h1 : (0 : ℚ) ≤ (j : ℚ) * defaultConfig.gravity :=
        mul_nonneg (by positivity) (by norm_num [defaultConfig])
      linarith
    rw [h, jumpTick_succ _ _ _ _ _ (by push_cast; omega) hg]
  · obtain ⟨y', vx', h⟩ := airTick_iter x y vx vy 5 (by norm_num)
    rw [h, jumpTick_fail _ _ _ _ _ (by norm_num)]
    push_cast
    ring

/-- C8, witness: a player leaving the ground with vy = 3 ≥ 0; the jump
pressed on airborne tick 3 (j = 2 ≤ 4) succeeds, and on tick 6 fails. -/
theorem C8_coyote_window_witness :
    ((0 : ℚ) ≤ 3 ∧ (2 : Nat) ≤ 4) ∧
    (Player.update defaultConfig sqZero jumpKeys []
      (airTick^[2] (airborne 0 0 0 3 6))).1.vel_y =
        defaultConfig.jumpStrength + defaultConfig.gravity ∧
    (Player.update defaultConfig sqZero jumpKeys []
      (airTick^[5] (airborne 0 0 0 3 6))).1.vel_y =
        3 + 5 * defaultConfig.gravity + defaultConfig.gravity :=
  ⟨⟨by norm_num, by norm_num⟩,
    (C8_coyote_window 0 0 0 3 (by norm_num)).1 2 (by norm_num),
    (C8_coyote_window 0 0 0 3 (by norm_num)).2⟩

/-! ## Claim C9: the terminal flag -/

theorem floor_600_2 : (Int.floor ((600 : ℚ) / 2)) = 300 := by
  rw [Int.floor_eq_iff] <;> norm_num

/-- C9, amended.  The session's terminal behaviour: (1) once `game_over`
is set, every `Game.update` returns the state unchanged (player,
generator, camera and score are all frozen), so the flag transitions
false→true at most once until a reset; (2) from a live state the flag
becomes true exactly when the post-update player.y exceeds
`int(camera.y) + screen_height + 100` — the camera's *truncated* integer
y as returned by `camera.get_y()`, not its exact y; (3) `reset_game`
reinitialises every component and clears the flag. -/
theorem C9_terminal_transition {R : Type} (cfg : Config) (lib : RandomLib R)
    (sq : ℚ → ℚ) (keys : Keys) :
    (∀ (gs : GameState) (g : R), gs.game_over = true →
      gameUpdate cfg lib sq keys (gs, g) = (gs, g)) ∧
    (∀ (gs : GameState) (g : R), gs.game_over = false →
      (((gameUpdate cfg lib sq keys (gs, g)).1.game_over = true) ↔
        ((gameUpdate cfg lib sq keys (gs, g)).1.player.y >
          (((gameUpdate cfg lib sq keys (gs, g)).1.camera.get_y : Int) : ℚ) +
            cfg.screenHeight + 100))) ∧
    (∀ g : R, (reset_game cfg lib g).1.game_over = false) := by
  refine ⟨fun gs g h => ?_, fun gs g h => ?_, fun g => rfl⟩
  · simp [gameUpdate, h]
  · simp [gameUpdate, h]

/-- C9, witness: the no-op rule applied at a terminal state, the
transition rule at a live state, and the reset rule. -/
theorem C9_terminal_transition_witness :
    (gsOver.game_over = true ∧
      gameUpdate defaultConfig intLib sqZero noKeys (gsOver, 0) = (gsOver, 0)) ∧
    (gsLive.game_over = false ∧
      (((gameUpdate defaultConfig intLib sqZero noKeys (gsLive, 0)).1.game_over = true) ↔
        ((gameUpdate defaultConfig intLib sqZero noKeys (gsLive, 0)).1.player.y >
          (((gameUpdate defaultConfig intLib sqZero noKeys
              (gsLive, 0)).1.camera.get_y : Int) : ℚ) +
            defaultConfig.screenHeight + 100))) ∧
    (reset_game defaultConfig intLib 0).1.game_over = false :=
  ⟨⟨rfl, (C9_terminal_transition defaultConfig intLib sqZero noKeys).1 gsOver 0 rfl⟩,
    ⟨rfl, (C9_terminal_transition defaultConfig intLib sqZero noKeys).2.1 gsLive 0 rfl⟩,
    (C9_terminal_transition defaultConfig intLib sqZero noKeys).2.2 0⟩

theorem genUpdate_genFar : genUpdate defaultConfig intLib 0 (genFar, 0) = (genFar, 0) := by
  simp only [genUpdate]
  rw [loopFuel_eq_zero _ _ (by norm_num [genFar, defaultConfig, floor_1000_3])]
  rfl

set_option maxHeartbeats 1000000 in
/-- C9, counterexample.  The claim's trigger condition is
"player.y exceeds camera.y + screen_height + 100", but the code tests
`player.y > camera.get_y() + SCREEN_HEIGHT + 100` where `get_y` is
`int(self.y)` — the *truncated* camera y.  From `gsLive9` one update
brings the player to y = 700.3 and the camera to y = 0.5: the code's
threshold is int(0.5) + 700 = 700 < 700.3, so game_over flips to true,
while the claim's exact-camera condition 700.3 > 700.5 is false — the
flag transitions although the claimed trigger never held. -/
theorem C9_terminal_counterexample :
    (gameUpdate defaultConfig intLib sqZero noKeys (gsLive9, 0)).1.game_over = true ∧
    ¬((gameUpdate defaultConfig intLib sqZero noKeys (gsLive9, 0)).1.player.y >
      (gameUpdate defaultConfig intLib sqZero noKeys (gsLive9, 0)).1.camera.y +
        defaultConfig.screenHeight + 100) := by
  have hg : genUpdate defaultConfig intLib gsLive9.player.x (gsLive9.generator, 0) =
      (genFar, 0) := genUpdate_genFar
  simp only [gameUpdate]
  rw [if_neg (by simp [gsLive9])]
  rw [hg]
  norm_num [Player.update, Player.moveInput, Player.coyoteStep, Player.jumpStep,
    Player.dashStart, Player.dashTick, Player.cooldownStep, Player.gravityStep,
    Player.integrate, Player.collide, Camera.update, Camera.get_y, pyInt,
    get_active_platforms, mergePlatforms, gsLive9, genFar, Player.make, noKeys,
    sqZero, defaultConfig, floor_1000_3, floor_600_2, Int.floor_eq_iff]
